import Mathlib

/-!
Verification development for the SiYi py-protocol library
(shared/py-protocol/src: models.py, client.py, server.py).

The Python code is shallowly embedded: Pydantic models become Lean
structures, the JSON documents handled by `model_dump_json` and
`parse_message` become an inductive `Json` type (an object node models a
parsed Python dict, so its keys are unique and lookup order is
irrelevant), raised exceptions become `Except` errors, and the
asyncio-based stateful parts (the correlation table of pending futures,
the connection registry, heartbeat tasks) become explicit state passing
over association lists.
-/

namespace SiYi

/-- JSON values as produced by parsing a UTF-8 text frame.  An `obj`
node stands for an already-parsed Python dict (keys unique); numbers
are modelled by integers, which is the fragment the claims exercise. -/
inductive Json where
  | null : Json
  | bool (b : Bool) : Json
  | num (n : Int) : Json
  | str (s : String) : Json
  | arr (xs : List Json) : Json
  | obj (kvs : List (String × Json)) : Json

instance : (j : Json) → Decidable (j = Json.null)
  | .null => isTrue rfl
  | .bool _ => isFalse (fun h => Json.noConfusion h)
  | .num _ => isFalse (fun h => Json.noConfusion h)
  | .str _ => isFalse (fun h => Json.noConfusion h)
  | .arr _ => isFalse (fun h => Json.noConfusion h)
  | .obj _ => isFalse (fun h => Json.noConfusion h)

/-- Python dict lookup on an object node's key-value list. -/
def jGet (kvs : List (String × Json)) (k : String) : Option Json :=
  (kvs.find? (fun p => p.1 = k)).map (fun p => p.2)

/-- Render one base-16 digit list of fixed width (most significant first),
used for the canonical textual form of a UUID. -/
def hexDigits : Nat → Nat → List Char
  | 0, _ => []
  | w + 1, n => hexDigits w (n / 16) ++ [Nat.digitChar (n % 16)]

/-- Canonical 8-4-4-4-12 lowercase hex rendering of a 128-bit UUID value,
modelling Python's `str(uuid.UUID)`; kept irreducible since no claim
depends on the concrete digits. -/
@[irreducible] def uuidToCanonical (u : Nat) : String :=
  let d := hexDigits 32 (u % 2 ^ 128)
  String.mk (d.take 8 ++ '-' :: (d.drop 8).take 4 ++ '-' :: (d.drop 12).take 4
    ++ '-' :: (d.drop 16).take 4 ++ '-' :: d.drop 20)

/-- models.py `IdType = Union[uuid.UUID, str]`: an id is either a UUID
(carried as its 128-bit value) or an opaque string. -/
inductive IdT where
  | uuid (u : Nat) : IdT
  | str (s : String) : IdT
deriving DecidableEq

/-- client.py / server.py `_normalize_id`: `str(id)` for a UUID, the
string itself otherwise. -/
def normalize_id : IdT → String
  | .uuid u => uuidToCanonical u
  | .str s => s

/-- models.py `Request`: `id`, fixed `type="request"`, `command`,
optional `params` dict. -/
structure Request where
  id : IdT
  command : String
  params : Option (List (String × Json))

/-- models.py `Response.status`: the literal `"ok" | "error"`. -/
inductive RStatus where
  | ok : RStatus
  | error : RStatus
deriving DecidableEq

/-- models.py `Response`: `id`, fixed `type="response"`, `status`,
`data: Optional[Any]` (Python `None` is `Json.null`), optional `error`
string. -/
structure Response where
  id : IdT
  status : RStatus
  data : Json
  error : Option String

/-- models.py `Event`: `id`, fixed `type="event"`, `name`, optional
`data` dict. -/
structure Event where
  id : IdT
  name : String
  data : Option (List (String × Json))

/-- models.py `Message`: the union of the three variants, discriminated
by the `type` field. -/
inductive Msg where
  | request (r : Request) : Msg
  | response (r : Response) : Msg
  | event (e : Event) : Msg

/-- The wire value of the `type` discriminator of each variant. -/
def Msg.tag : Msg → String
  | .request _ => "request"
  | .response _ => "response"
  | .event _ => "event"

/-- models.py `Response.validate_response`, the `mode="after"` model
validator: `status=ok` forbids a non-None `error`, `status=error`
forbids non-None `data`. -/
def validate_response (r : Response) : Except String Response :=
  if r.status = .ok ∧ r.error ≠ none then
    .error "error must be None when status is ok"
  else if r.status = .error ∧ r.data ≠ .null then
    .error "data must be None when status is error"
  else
    .ok r

/-- Constructing a `Response(id=, status=, data=, error=)`: Pydantic
runs the after-validator at construction time. -/
def mkResponse (id : IdT) (status : RStatus) (data : Json)
    (error : Option String) : Except String Response :=
  validate_response ⟨id, status, data, error⟩

/-- models.py `Response.success(request_id, data)`. -/
def Response.success (request_id : IdT) (data : Json) : Response :=
  ⟨request_id, .ok, data, none⟩

/-- models.py `Response.fail(request_id, error_message)`. -/
def Response.fail (request_id : IdT) (error_message : String) : Response :=
  ⟨request_id, .error, .null, some error_message⟩

/-- The §3 consistency invariant of a Response value. -/
def respInvariant (r : Response) : Prop :=
  (r.status = .ok → r.error = none) ∧ (r.status = .error → r.data = .null)

instance (r : Response) : Decidable (respInvariant r) := by
  unfold respInvariant; infer_instance

/-- JSON form of an id under `model_dump_json`: a UUID serializes as its
canonical string, a string id as itself. -/
def encodeId : IdT → Json
  | .uuid u => .str (uuidToCanonical u)
  | .str s => .str s

/-- JSON form of an `Optional[Dict[str, Any]]` field (`None` dumps as
`null`). -/
def encodeOptDict : Option (List (String × Json)) → Json
  | none => .null
  | some kvs => .obj kvs

/-- JSON form of an `Optional[str]` field. -/
def encodeOptStr : Option String → Json
  | none => .null
  | some s => .str s

/-- `Request.model_dump_json()` as a JSON document (fields in
declaration order, `None` dumped as `null`). -/
def encodeRequest (r : Request) : Json :=
  .obj [("id", encodeId r.id), ("type", .str "request"),
        ("command", .str r.command), ("params", encodeOptDict r.params)]

/-- `Response.model_dump_json()` as a JSON document. -/
def encodeResponse (r : Response) : Json :=
  .obj [("id", encodeId r.id), ("type", .str "response"),
        ("status", .str (match r.status with | .ok => "ok" | .error => "error")),
        ("data", r.data), ("error", encodeOptStr r.error)]

/-- `Event.model_dump_json()` as a JSON document. -/
def encodeEvent (e : Event) : Json :=
  .obj [("id", encodeId e.id), ("type", .str "event"),
        ("name", .str e.name), ("data", encodeOptDict e.data)]

/-- `model_dump_json` on any message (the encoder of §4.1). -/
def encodeMessage : Msg → Json
  | .request r => encodeRequest r
  | .response r => encodeResponse r
  | .event e => encodeEvent e

/-- Validation of an id field that has `default_factory=uuid.uuid4`:
absent means a freshly generated UUID (`fresh`); a JSON string is kept
as a string (in a `Union[UUID, str]` smart union a string input is an
exact match for the `str` member, so it is not coerced to `UUID`); any
other JSON value is rejected. -/
def parseIdDefault (kvs : List (String × Json)) (fresh : Nat) :
    Except String IdT :=
  match jGet kvs "id" with
  | none => .ok (.uuid fresh)
  | some (.str s) => .ok (.str s)
  | some _ => .error "id: input is not a valid UUID or string"

/-- Validation of the required `id` field of a Response (no default). -/
def parseIdRequired (kvs : List (String × Json)) : Except String IdT :=
  match jGet kvs "id" with
  | none => .error "id: field required"
  | some (.str s) => .ok (.str s)
  | some _ => .error "id: input is not a valid UUID or string"

/-- Validation of a required `str` field (no numeric coercion in JSON
mode). -/
def parseStrField (kvs : List (String × Json)) (k : String) :
    Except String String :=
  match jGet kvs k with
  | none => .error (k ++ ": field required")
  | some (.str s) => .ok s
  | some _ => .error (k ++ ": input is not a valid string")

/-- Validation of an `Optional[Dict[str, Any]]` field: absent or `null`
gives `None`, an object gives the dict, anything else is rejected. -/
def parseOptDictField (kvs : List (String × Json)) (k : String) :
    Except String (Option (List (String × Json))) :=
  match jGet kvs k with
  | none => .ok none
  | some .null => .ok none
  | some (.obj o) => .ok (some o)
  | some _ => .error (k ++ ": input is not a valid dict")

/-- Validation of an `Optional[str]` field. -/
def parseOptStrField (kvs : List (String × Json)) (k : String) :
    Except String (Option String) :=
  match jGet kvs k with
  | none => .ok none
  | some .null => .ok none
  | some (.str s) => .ok (some s)
  | some _ => .error (k ++ ": input is not a valid string")

/-- Validation of the `status: Literal["ok", "error"]` field. -/
def parseStatusField (kvs : List (String × Json)) :
    Except String RStatus :=
  match jGet kvs "status" with
  | some (.str s) =>
      if s = "ok" then .ok .ok
      else if s = "error" then .ok .error
      else .error "status: input should be ok or error"
  | some _ => .error "status: input should be ok or error"
  | none => .error "status: field required"

/-- Field validation of the Request variant (extra keys are ignored, as
Pydantic does by default). -/
def parseRequestFields (fresh : Nat) (kvs : List (String × Json)) :
    Except String Request :=
  match parseIdDefault kvs fresh, parseStrField kvs "command",
      parseOptDictField kvs "params" with
  | .ok i, .ok c, .ok p => .ok ⟨i, c, p⟩
  | .error e, _, _ => .error e
  | _, .error e, _ => .error e
  | _, _, .error e => .error e

/-- Field validation of the Response variant, including the
after-validator `validate_response`, which also runs on parse. -/
def parseResponseFields (kvs : List (String × Json)) :
    Except String Response :=
  match parseIdRequired kvs, parseStatusField kvs,
      parseOptStrField kvs "error" with
  | .ok i, .ok st, .ok er =>
      validate_response ⟨i, st, (jGet kvs "data").getD .null, er⟩
  | .error e, _, _ => .error e
  | _, .error e, _ => .error e
  | _, _, .error e => .error e

/-- Field validation of the Event variant. -/
def parseEventFields (fresh : Nat) (kvs : List (String × Json)) :
    Except String Event :=
  match parseIdDefault kvs fresh, parseStrField kvs "name",
      parseOptDictField kvs "data" with
  | .ok i, .ok n, .ok d => .ok ⟨i, n, d⟩
  | .error e, _, _ => .error e
  | _, .error e, _ => .error e
  | _, _, .error e => .error e

/-- models.py `parse_message`: the input is the result of JSON-parsing
the raw text frame (`none` when the text is not valid JSON), and the
discriminated union selects the variant from the `type` field alone,
then validates the remaining fields of that variant.  `fresh` supplies
the UUID that `default_factory` would generate for an absent id. -/
def parse_message (fresh : Nat) : Option Json → Except String Msg
  | none => .error "invalid JSON"
  | some (.obj kvs) =>
      match jGet kvs "type" with
      | some (.str t) =>
          if t = "request" then (parseRequestFields fresh kvs).map .request
          else if t = "response" then (parseResponseFields kvs).map .response
          else if t = "event" then (parseEventFields fresh kvs).map .event
          else .error "input tag does not match any expected tag"
      | some _ => .error "discriminator tag is not a string"
      | none => .error "unable to extract tag using discriminator type"
  | some _ => .error "input should be an object"

/-! ## Correlation table, dispatch and connection state

The `_pending_requests` dict of client.py / server.py maps a normalized
request id to an `asyncio.Future`.  A future is modelled as a `Slot`:
an identity token (object identity of the Python future) together with
its state (`pending`, `resolved`, or `cancelled`). -/

/-- The state of one correlation future. -/
inductive FutureState where
  | pending : FutureState
  | resolved (r : Response) : FutureState
  | cancelled : FutureState

/-- One correlation slot: the future object (identity token) and its
state. -/
structure Slot where
  token : Nat
  state : FutureState

/-- Python's `future.done()`: true once resolved or cancelled. -/
def Slot.done (s : Slot) : Bool :=
  match s.state with
  | .pending => false
  | _ => true

/-- The `_pending_requests` dict, keyed by normalized id string. -/
abbrev Table := List (String × Slot)

/-- Dict lookup (`dict.get`). -/
def tblLookup (t : Table) (k : String) : Option Slot :=
  (List.find? (fun p => p.1 = k) t).map (fun p => p.2)

/-- Dict item assignment `d[k] = v`: the new binding replaces any
existing binding of `k`. -/
def tblInsert (t : Table) (k : String) (v : Slot) : Table :=
  (k, v) :: List.filter (fun p => p.1 ≠ k) t

/-- Dict removal `d.pop(k, None)`. -/
def tblErase (t : Table) (k : String) : Table :=
  List.filter (fun p => p.1 ≠ k) t

/-- client.py:212 / server.py:231
`self._pending_requests[request_id] = future`: how `send_request`
registers a correlation slot.  `tok` is the identity of the freshly
created future; the assignment is unconditional. -/
def registerSlot (t : Table) (id : String) (tok : Nat) : Table :=
  tblInsert t id ⟨tok, .pending⟩

/-- client.py `_handle_response` / server.py `_handle_response`: look up
the slot under the normalized string form of the response id; complete
the future only if it exists and is not already done; otherwise log and
drop. -/
def handle_response (t : Table) (resp : Response) : Table :=
  match tblLookup t (normalize_id resp.id) with
  | some slot =>
      if slot.done then t
      else tblInsert t (normalize_id resp.id) ⟨slot.token, .resolved resp⟩
  | none => t

/-- A registered request handler; a raised exception is modelled as
`Except.error` carrying `str(e)`. -/
abbrev Handler := Request → Except String Response

/-- client.py `_handle_request`: the list of messages the dispatch
writes back (each branch performs exactly one `_send_message`).  A
heartbeat request is answered before, and regardless of, the registered
handler. -/
def clientHandleRequest (heartbeat_command : String)
    (handler : Option Handler) (req : Request) : List Response :=
  if req.command = heartbeat_command then
    [Response.success req.id (.obj [("status", .str "alive")])]
  else
    match handler with
    | some h =>
        match h req with
        | .ok resp => [resp]
        | .error e => [Response.fail req.id e]
    | none => [Response.fail req.id "No request handler registered"]

/-- A connection handle (object identity of a `ServerConnection`). -/
abbrev Conn := Nat

/-- A server-side handler additionally receives the originating
connection. -/
abbrev SHandler := Conn → Request → Except String Response

/-- server.py `_handle_request`: the messages written back on the given
connection.  Note there is no heartbeat branch here — the server
dispatches every request to the registered handler (or answers with an
error response when none is registered). -/
def serverHandleRequest (handler : Option SHandler) (conn : Conn)
    (req : Request) : List Response :=
  match handler with
  | some h =>
      match h conn req with
      | .ok resp => [resp]
      | .error e => [Response.fail req.id e]
  | none => [Response.fail req.id "No request handler registered"]

/-- Errors a `send_request` caller can observe. -/
inductive SendErr where
  | notConnected : SendErr
  | timeout : SendErr
  | cancelled : SendErr
  | sendFailed (e : String) : SendErr

/-- How the awaited future of one `send_request` call turns out: either
the send itself raised, or the wait ended with a response, a timeout, or
a cancellation. -/
inductive AwaitOutcome where
  | resolved (r : Response) : AwaitOutcome
  | timedOut : AwaitOutcome
  | cancelled : AwaitOutcome
  | sendFailed (e : String) : AwaitOutcome

/-- client.py:220 / server.py:239 `timeout if timeout is not None else
self.request_timeout`: the deadline passed to `asyncio.wait_for`.
Durations are opaque data here, modelled as `Nat`. -/
def effectiveTimeout (timeout : Option Nat) (request_timeout : Nat) : Nat :=
  match timeout with
  | some t => t
  | none => request_timeout

/-- Result of one `send_request` call: what the caller gets, the final
correlation table, and the Requests actually written to the wire. -/
structure SendResult where
  result : Except SendErr Response
  table : Table
  wrote : List Request

/-- client.py `send_request` (and server.py `send_request` scoped to one
live connection): refuse when not connected (before any registration or
write); otherwise create the Request with a fresh UUID id, register a
pending slot under its normalized id, write the Request, await the
outcome, and in the `finally` block pop the slot from the table.
`fresh` is the UUID produced by `uuid4()`, `tok` the identity of the
new future, `oc` the awaited outcome. -/
def send_request (connected : Bool) (t : Table) (fresh : Nat) (tok : Nat)
    (command : String) (params : Option (List (String × Json)))
    (oc : AwaitOutcome) : SendResult :=
  if connected = false then
    ⟨.error .notConnected, t, []⟩
  else
    let req : Request := ⟨.uuid fresh, command, params⟩
    let rid := normalize_id req.id
    let t1 := registerSlot t rid tok
    match oc with
    | .sendFailed e => ⟨.error (.sendFailed e), tblErase t1 rid, []⟩
    | .resolved r => ⟨.ok r, tblErase t1 rid, [req]⟩
    | .timedOut => ⟨.error .timeout, tblErase t1 rid, [req]⟩
    | .cancelled => ⟨.error .cancelled, tblErase t1 rid, [req]⟩

/-- The state of one per-connection heartbeat task. -/
inductive TaskState where
  | running : TaskState
  | cancelled : TaskState
  | finished : TaskState
deriving DecidableEq

/-- Python's `task.done()` for a heartbeat task. -/
def TaskState.isDone : TaskState → Bool
  | .running => false
  | _ => true

/-- The server-side mutable state touched by a connection teardown: the
connection registry set, the per-connection heartbeat tasks, and the
shared correlation table. -/
structure ServerState where
  connections : List Conn
  heartbeats : List (Conn × TaskState)
  pending : Table

/-- server.py `_handle_connection`, `finally` block (runs when the
connection's receive loop has ended): pop this connection's heartbeat
task and cancel it if not done, and discard the connection from the
registry.  The shared `_pending_requests` table is not touched.  The
second component is the final state of the popped heartbeat task
(`none` when the connection had no heartbeat task). -/
def teardownConnection (s : ServerState) (c : Conn) :
    ServerState × Option TaskState :=
  let popped := (List.find? (fun p => p.1 = c) s.heartbeats).map
    (fun p => if p.2.isDone then p.2 else TaskState.cancelled)
  (⟨List.filter (fun d => d ≠ c) s.connections,
    List.filter (fun p => p.1 ≠ c) s.heartbeats,
    s.pending⟩, popped)

/-- The client-side mutable state touched by `disconnect`. -/
structure ClientState where
  running : Bool
  connected : Bool
  receiveRunning : Bool
  pending : Table

/-- client.py `disconnect`: stop running, clear the connected flag,
cancel the receive task, close the transport, cancel every pending
future that is not done, and clear the table.  The second component is
the view of the futures at the moment they were cancelled (what their
waiting callers observe). -/
def clientDisconnect (s : ClientState) : ClientState × Table :=
  let cancelledView := s.pending.map
    (fun p => if p.2.done then p else (p.1, ⟨p.2.token, .cancelled⟩))
  (⟨false, false, false, []⟩, cancelledView)

/-- Whether a connection write succeeds; per-connection transport
behaviour is a parameter of the broadcast model. -/
abbrev SendOk := Conn → Bool

/-- server.py `broadcast_event`: build one send task per registered
connection not in `exclude` and run them all with
`asyncio.gather(..., return_exceptions=True)`, so every task runs to
completion and per-connection failures are collected instead of raised.
The result records, per targeted connection, whether its own write
succeeded. -/
def broadcast_event (connections : List Conn) (exclude : List Conn)
    (sendOk : SendOk) : List (Conn × Bool) :=
  (connections.filter (fun c => decide (c ∉ exclude))).map
    (fun c => (c, sendOk c))

/-- server.py `broadcast_request`: one `send_to_conn` task per targeted
connection; each task catches every exception of its own `send_request`
and stores either the Response or the exception in `results[conn]`, so
`asyncio.gather` never sees a failure.  `outcome c` is the result of
connection `c`'s own correlated request. -/
def broadcast_request (connections : List Conn) (exclude : List Conn)
    (outcome : Conn → Except SendErr Response) :
    List (Conn × Except SendErr Response) :=
  (connections.filter (fun c => decide (c ∉ exclude))).map
    (fun c => (c, outcome c))

/-- Lookup of one connection's entry in a broadcast result mapping. -/
def connLookup {β : Type} (t : List (Conn × β)) (c : Conn) : Option β :=
  (List.find? (fun p => p.1 = c) t).map (fun p => p.2)

/-! ## Spec-side predicates

These definitions follow the words of the specification (§3, §4.1), not
the code; they are compared with the parser in the refinement claims. -/

/-- Field `k` is present and is a JSON string. -/
def strField (kvs : List (String × Json)) (k : String) : Prop :=
  ∃ s, jGet kvs k = some (Json.str s)

/-- An id field with a default: absent, or a string. -/
def goodIdOpt (kvs : List (String × Json)) : Prop :=
  jGet kvs "id" = none ∨ strField kvs "id"

/-- An optional mapping-valued field: absent, null, or an object. -/
def goodOptDict (kvs : List (String × Json)) (k : String) : Prop :=
  jGet kvs k = none ∨ jGet kvs k = some .null ∨ ∃ o, jGet kvs k = some (.obj o)

/-- An optional string-valued field: absent, null, or a string. -/
def goodOptStr (kvs : List (String × Json)) (k : String) : Prop :=
  jGet kvs k = none ∨ jGet kvs k = some .null ∨ strField kvs k

/-- The `status` field is one of the two literals. -/
def goodStatus (kvs : List (String × Json)) : Prop :=
  jGet kvs "status" = some (.str "ok") ∨ jGet kvs "status" = some (.str "error")

/-- §3's Response consistency invariant, read off the wire document:
status ok forbids a non-null error, status error forbids non-null data. -/
def responseConsistent (kvs : List (String × Json)) : Prop :=
  (jGet kvs "status" = some (.str "ok") →
    jGet kvs "error" = none ∨ jGet kvs "error" = some .null) ∧
  (jGet kvs "status" = some (.str "error") →
    jGet kvs "data" = none ∨ jGet kvs "data" = some .null)

/-- §3/§4.1, in the claim's words: a decodable message document is
well-formed JSON, an object, carries a recognized `type` discriminator,
and the fields of the selected variant are present and correctly typed
(including the Response consistency invariant, which the selected
variant validates). -/
def goodMessageJson : Option Json → Prop
  | some (.obj kvs) =>
      match jGet kvs "type" with
      | some (.str t) =>
          if t = "request" then
            goodIdOpt kvs ∧ strField kvs "command" ∧ goodOptDict kvs "params"
          else if t = "response" then
            strField kvs "id" ∧ goodStatus kvs ∧ goodOptStr kvs "error" ∧
              responseConsistent kvs
          else if t = "event" then
            goodIdOpt kvs ∧ strField kvs "name" ∧ goodOptDict kvs "data"
          else False
      | some _ => False
      | none => False
  | _ => False

/-- §3's Identifier equality: by normalized string form. -/
def idEq (a b : IdT) : Prop :=
  normalize_id a = normalize_id b

/-- Message equality field by field, with the id field compared by §3's
Identifier equality (normalized string form) and the variant — the
`type` discriminator — required to coincide. -/
def msgEqNorm : Msg → Msg → Prop
  | .request a, .request b =>
      idEq a.id b.id ∧ a.command = b.command ∧ a.params = b.params
  | .response a, .response b =>
      idEq a.id b.id ∧ a.status = b.status ∧ a.data = b.data ∧
        a.error = b.error
  | .event a, .event b =>
      idEq a.id b.id ∧ a.name = b.name ∧ a.data = b.data
  | _, _ => False

/-- A message satisfying the §3 invariants: non-empty command / name,
and the Response consistency invariant. -/
def validMsg : Msg → Prop
  | .request r => r.command ≠ ""
  | .response r => respInvariant r
  | .event e => e.name ≠ ""

/-! ## Association-list lemmas -/

theorem tblLookup_insert_self (t : Table) (k : String) (v : Slot) :
    tblLookup (tblInsert t k v) k = some v := by
  simp [tblLookup, tblInsert, List.find?]

theorem find?_filter_ne {κ α : Type} [DecidableEq κ] (t : List (κ × α))
    (k k2 : κ) (h : k2 ≠ k) :
    List.find? (fun p => p.1 = k2) (List.filter (fun p => p.1 ≠ k) t) =
      List.find? (fun p => p.1 = k2) t := by
  induction t with
  | nil => rfl
  | cons a t ih =>
      rw [List.filter_cons]
      by_cases hk : a.1 = k
      · have h2 : a.1 ≠ k2 := by rw [hk]; exact Ne.symm h
        rw [if_neg (by simp [hk]), List.find?_cons_of_neg _ (by simp [h2]), ih]
      · by_cases hk2 : a.1 = k2
        · rw [if_pos (by simp [hk]), List.find?_cons_of_pos _ (by simp [hk2]),
            List.find?_cons_of_pos _ (by simp [hk2])]
        · rw [if_pos (by simp [hk]), List.find?_cons_of_neg _ (by simp [hk2]),
            List.find?_cons_of_neg _ (by simp [hk2]), ih]

theorem tblLookup_insert_ne (t : Table) (k k2 : String) (v : Slot)
    (h : k2 ≠ k) :
    tblLookup (tblInsert t k v) k2 = tblLookup t k2 := by
  unfold tblLookup tblInsert
  rw [List.find?_cons_of_neg _ (by simp [Ne.symm h]), find?_filter_ne t k k2 h]

theorem tblLookup_erase_self (t : Table) (k : String) :
    tblLookup (tblErase t k) k = none := by
  induction t with
  | nil => rfl
  | cons a t ih =>
      unfold tblErase at ih ⊢
      rw [List.filter_cons]
      by_cases hk : a.1 = k
      · rw [if_neg (by simp [hk])]; exact ih
      · unfold tblLookup at ih ⊢
        rw [if_pos (by simp [hk]), List.find?_cons_of_neg _ (by simp [hk])]
        exact ih

theorem tblLookup_erase_ne (t : Table) (k k2 : String) (h : k2 ≠ k) :
    tblLookup (tblErase t k) k2 = tblLookup t k2 := by
  unfold tblLookup tblErase
  rw [find?_filter_ne t k k2 h]

theorem find?_filter_self {κ α : Type} [DecidableEq κ] (t : List (κ × α))
    (k : κ) :
    List.find? (fun p => p.1 = k) (List.filter (fun p => p.1 ≠ k) t) =
      none := by
  induction t with
  | nil => rfl
  | cons a t ih =>
      rw [List.filter_cons]
      by_cases hk : a.1 = k
      · rw [if_neg (by simp [hk])]; exact ih
      · rw [if_pos (by simp [hk]), List.find?_cons_of_neg _ (by simp [hk])]
        exact ih

theorem connLookup_map_self {β : Type} (l : List Conn) (f : Conn → β)
    (c : Conn) :
    connLookup (l.map (fun d => (d, f d))) c =
      if c ∈ l then some (f c) else none := by
  induction l with
  | nil => simp [connLookup]
  | cons a l ih =>
      unfold connLookup at ih ⊢
      rw [List.map_cons]
      by_cases hac : a = c
      · subst hac
        rw [List.find?_cons_of_pos _ (by simp)]
        simp
      · rw [List.find?_cons_of_neg _ (by simp [hac]), ih]
        simp [List.mem_cons, Ne.symm hac]

/-! ## Claims -/

/-- Claim C2: constructing a Response fails exactly when the arguments
violate the consistency invariant (status ok with a non-None error, or
status error with non-None data); every successfully constructed
Response — including those built by `Response.success` and
`Response.fail`, the only constructors the library serializes — is
returned unchanged and satisfies the invariant, so an
invariant-violating Response is never serialized. -/
theorem response_construction_invariant :
    ∀ (id : IdT) (status : RStatus) (data : Json) (error : Option String),
      ((mkResponse id status data error).isOk = false ↔
        (status = .ok ∧ error ≠ none) ∨ (status = .error ∧ data ≠ .null)) ∧
      (∀ r, mkResponse id status data error = .ok r →
        respInvariant r ∧ r = ⟨id, status, data, error⟩) ∧
      (∀ d, respInvariant (Response.success id d)) ∧
      (∀ e, respInvariant (Response.fail id e)) := by
  intro id status data error
  refine ⟨?_, ?_, ?_, ?_⟩
  · by_cases h1 : status = RStatus.ok ∧ error ≠ none
    · simp only [mkResponse, validate_response, if_pos h1, Except.isOk]
      exact iff_of_true rfl (Or.inl h1)
    · by_cases h2 : status = RStatus.error ∧ data ≠ Json.null
      · simp only [mkResponse, validate_response, if_neg h1, if_pos h2,
          Except.isOk]
        exact iff_of_true rfl (Or.inr h2)
      · refine iff_of_false ?_ (fun h => h.elim h1 h2)
        simp [mkResponse, validate_response, h1, h2, Except.isOk,
          Except.toBool]
  · intro r h
    unfold mkResponse validate_response at h
    by_cases h1 : status = RStatus.ok ∧ error ≠ none
    · rw [if_pos h1] at h; exact Except.noConfusion h
    · rw [if_neg h1] at h
      by_cases h2 : status = RStatus.error ∧ data ≠ Json.null
      · rw [if_pos h2] at h; exact Except.noConfusion h
      · rw [if_neg h2] at h
        injection h with h
        subst h
        refine ⟨⟨?_, ?_⟩, rfl⟩
        · intro hs; by_contra hne; exact h1 ⟨hs, hne⟩
        · intro hs; by_contra hne; exact h2 ⟨hs, hne⟩
  · intro d
    exact ⟨fun _ => rfl, fun h => absurd h (by simp [Response.success])⟩
  · intro e
    exact ⟨fun h => absurd h (by simp [Response.fail]), fun _ => rfl⟩

/-- Witness for C2 at a concrete construction. -/
theorem response_construction_invariant_witness :
    respInvariant (⟨.str "a", .ok, .null, none⟩ : Response) ∧
      (⟨.str "a", .ok, .null, none⟩ : Response) = ⟨.str "a", .ok, .null, none⟩ :=
  (response_construction_invariant (.str "a") .ok .null none).2.1
    ⟨.str "a", .ok, .null, none⟩ rfl

/-- Claim C3 counterexample: the server's per-connection dispatch does
not auto-reply to heartbeat requests.  With no handler registered, an
inbound Request with the configured heartbeat command gets an error
Response ("No request handler registered"), not the ok/alive reply the
claim promises. -/
theorem server_heartbeat_counterexample :
    serverHandleRequest none 0 ⟨.str "a", "heartbeat", none⟩ =
      [Response.fail (.str "a") "No request handler registered"] ∧
    (Response.fail (.str "a") "No request handler registered").status =
      .error ∧
    serverHandleRequest none 0 ⟨.str "a", "heartbeat", none⟩ ≠
      [Response.success (.str "a") (.obj [("status", .str "alive")])] := by
  refine ⟨rfl, rfl, ?_⟩
  intro h
  simp [serverHandleRequest, Response.fail, Response.success] at h

/-- Claim C3 (amended): only the client's receive loop auto-replies to
heartbeats — any inbound Request whose command equals the configured
heartbeat command is answered with Response.success carrying the
request's id and data `{"status": "alive"}` regardless of the
registered handler (including none).  The server's per-connection
dispatch has no heartbeat branch: with no handler it answers with the
no-handler error Response, and with a handler it invokes the handler
like any other request. -/
theorem heartbeat_dispatch :
    ∀ (hb : String) (handler : Option Handler) (sh : Option SHandler)
      (conn : Conn) (req : Request),
      (req.command = hb →
        clientHandleRequest hb handler req =
          [Response.success req.id (.obj [("status", .str "alive")])]) ∧
      (serverHandleRequest none conn req =
        [Response.fail req.id "No request handler registered"]) ∧
      (∀ h resp, sh = some h → h conn req = .ok resp →
        serverHandleRequest sh conn req = [resp]) := by
  intro hb handler sh conn req
  refine ⟨?_, rfl, ?_⟩
  · intro hcmd
    simp [clientHandleRequest, hcmd]
  · intro h resp hsh hok
    subst hsh
    simp [serverHandleRequest, hok]

/-- Witness for C3's amended theorem: a concrete heartbeat request is
answered ok/alive by the client with no handler registered, and is
passed to the server's registered handler. -/
theorem heartbeat_dispatch_witness :
    clientHandleRequest "heartbeat" none ⟨.str "a", "heartbeat", none⟩ =
      [Response.success (.str "a") (.obj [("status", .str "alive")])] ∧
    serverHandleRequest (some (fun _ r => .ok (Response.success r.id .null)))
        0 ⟨.str "a", "heartbeat", none⟩ =
      [Response.success (.str "a") .null] :=
  ⟨(heartbeat_dispatch "heartbeat" none none 0 ⟨.str "a", "heartbeat", none⟩).1
      rfl,
   (heartbeat_dispatch "heartbeat" none
      (some (fun _ r => .ok (Response.success r.id .null))) 0
      ⟨.str "a", "heartbeat", none⟩).2.2
      (fun _ r => .ok (Response.success r.id .null))
      (Response.success (.str "a") .null) rfl rfl⟩

/-- Claim C5 counterexample: registering a correlation slot for an id
that is already pending does not fail and does not leave the existing
slot intact — the assignment silently replaces the outstanding slot
(the stored future changes identity from token 0 to token 1). -/
theorem register_duplicate_counterexample :
    tblLookup [("a", ⟨0, .pending⟩)] "a" = some ⟨0, .pending⟩ ∧
    registerSlot [("a", ⟨0, .pending⟩)] "a" 1 = [("a", ⟨1, .pending⟩)] ∧
    tblLookup (registerSlot [("a", ⟨0, .pending⟩)] "a" 1) "a" =
      some ⟨1, .pending⟩ ∧
    (⟨1, .pending⟩ : Slot) ≠ (⟨0, .pending⟩ : Slot) := by
  refine ⟨rfl, rfl, rfl, ?_⟩
  intro h
  simp at h

/-- Claim C5 (amended): registration is an unconditional dict
assignment: the new pending slot is stored under the id, silently
replacing any slot already pending there (no duplicate-id error
exists); bindings of every other id are unchanged.  Uniqueness of
outstanding ids rests solely on fresh UUID generation. -/
theorem register_overwrites :
    ∀ (t : Table) (id : String) (tok : Nat),
      tblLookup (registerSlot t id tok) id = some ⟨tok, .pending⟩ ∧
      ∀ k, k ≠ id → tblLookup (registerSlot t id tok) k = tblLookup t k := by
  intro t id tok
  exact ⟨tblLookup_insert_self t id ⟨tok, .pending⟩,
    fun k hk => tblLookup_insert_ne t id k ⟨tok, .pending⟩ hk⟩

/-- Witness for C5's amended theorem on a concrete table. -/
theorem register_overwrites_witness :
    tblLookup (registerSlot [("a", ⟨0, .pending⟩)] "a" 1) "a" =
      some ⟨1, .pending⟩ ∧
    tblLookup (registerSlot [("a", ⟨0, .pending⟩)] "a" 1) "b" =
      tblLookup [("a", ⟨0, .pending⟩)] "b" :=
  ⟨(register_overwrites [("a", ⟨0, .pending⟩)] "a" 1).1,
   (register_overwrites [("a", ⟨0, .pending⟩)] "a" 1).2 "b" (by decide)⟩

/-- Claim C7: for an inbound non-heartbeat Request, both dispatches
write back exactly one Response: the handler's returned Response on a
normal return, the "No request handler registered" error Response when
no handler is registered, and an error Response carrying exactly the
raised exception's message when the handler raises (totality of the
dispatch functions is the model of "the loop never crashes"); whenever
the handler answers with the request's id — as §3 requires — every
written Response carries the request's id. -/
theorem request_dispatch_writes :
    ∀ (hb : String) (handler : Option Handler) (sh : Option SHandler)
      (conn : Conn) (req : Request), req.command ≠ hb →
      (clientHandleRequest hb handler req).length = 1 ∧
      (handler = none → clientHandleRequest hb handler req =
        [Response.fail req.id "No request handler registered"]) ∧
      (∀ h, handler = some h →
        (∀ resp, h req = .ok resp →
          clientHandleRequest hb handler req = [resp]) ∧
        (∀ e, h req = .error e →
          clientHandleRequest hb handler req = [Response.fail req.id e])) ∧
      (serverHandleRequest sh conn req).length = 1 ∧
      (sh = none → serverHandleRequest sh conn req =
        [Response.fail req.id "No request handler registered"]) ∧
      (∀ h, sh = some h →
        (∀ resp, h conn req = .ok resp →
          serverHandleRequest sh conn req = [resp]) ∧
        (∀ e, h conn req = .error e →
          serverHandleRequest sh conn req = [Response.fail req.id e])) ∧
      ((∀ h resp, handler = some h → h req = .ok resp → resp.id = req.id) →
        ∀ r ∈ clientHandleRequest hb handler req, r.id = req.id) ∧
      ((∀ h resp, sh = some h → h conn req = .ok resp → resp.id = req.id) →
        ∀ r ∈ serverHandleRequest sh conn req, r.id = req.id) := by
  intro hb handler sh conn req hcmd
  refine ⟨?_, ?_, ?_, ?_, ?_, ?_, ?_, ?_⟩
  · cases handler with
    | none => simp [clientHandleRequest, hcmd]
    | some h => cases hh : h req <;> simp [clientHandleRequest, hcmd, hh]
  · intro he; subst he; simp [clientHandleRequest, hcmd]
  · intro h he; subst he
    exact ⟨fun resp hr => by simp [clientHandleRequest, hcmd, hr],
      fun e hr => by simp [clientHandleRequest, hcmd, hr]⟩
  · cases sh with
    | none => simp [serverHandleRequest]
    | some h => cases hh : h conn req <;> simp [serverHandleRequest, hh]
  · intro he; subst he; rfl
  · intro h he; subst he
    exact ⟨fun resp hr => by simp [serverHandleRequest, hr],
      fun e hr => by simp [serverHandleRequest, hr]⟩
  · intro hid r hr
    cases handler with
    | none =>
        simp [clientHandleRequest, hcmd] at hr
        subst hr; rfl
    | some h =>
        cases hh : h req with
        | ok resp =>
            simp [clientHandleRequest, hcmd, hh] at hr
            subst hr; exact hid h r rfl hh
        | error e =>
            simp [clientHandleRequest, hcmd, hh] at hr
            subst hr; rfl
  · intro hid r hr
    cases sh with
    | none =>
        simp [serverHandleRequest] at hr
        subst hr; rfl
    | some h =>
        cases hh : h conn req with
        | ok resp =>
            simp [serverHandleRequest, hh] at hr
            subst hr; exact hid h r rfl hh
        | error e =>
            simp [serverHandleRequest, hh] at hr
            subst hr; rfl

/-- Witness for C7 at a concrete request, with no client handler and a
raising server handler. -/
theorem request_dispatch_writes_witness :
    clientHandleRequest "heartbeat" none ⟨.str "a", "echo", none⟩ =
      [Response.fail (.str "a") "No request handler registered"] ∧
    serverHandleRequest (some (fun _ _ => .error "x")) 0
        ⟨.str "a", "echo", none⟩ =
      [Response.fail (.str "a") "x"] :=
  ⟨(request_dispatch_writes "heartbeat" none none 0 ⟨.str "a", "echo", none⟩
      (by decide)).2.1 rfl,
   ((request_dispatch_writes "heartbeat" none (some (fun _ _ => .error "x")) 0
      ⟨.str "a", "echo", none⟩ (by decide)).2.2.2.2.2.1
      (fun _ _ => .error "x") rfl).2 "x" rfl⟩

/-- Claim C10: inbound Response dispatch looks up the slot under the
normalized string form of the response's id and completes the future
only when the slot exists and is not yet done; in that case the future
becomes resolved with the response and all other entries are untouched.
A Response with an unknown id, or one whose slot is already done
(resolved or cancelled), leaves the table unchanged (logged and
dropped), so each future is completed at most once and duplicates
cannot crash the loop (the dispatch is a total function). -/
theorem response_dispatch_spec :
    ∀ (t : Table) (resp : Response),
      (∀ tok, tblLookup t (normalize_id resp.id) = some ⟨tok, .pending⟩ →
        tblLookup (handle_response t resp) (normalize_id resp.id) =
          some ⟨tok, .resolved resp⟩ ∧
        ∀ k, k ≠ normalize_id resp.id →
          tblLookup (handle_response t resp) k = tblLookup t k) ∧
      (tblLookup t (normalize_id resp.id) = none →
        handle_response t resp = t) ∧
      (∀ s, tblLookup t (normalize_id resp.id) = some s → s.done = true →
        handle_response t resp = t) := by
  intro t resp
  refine ⟨?_, ?_, ?_⟩
  · intro tok hl
    unfold handle_response
    rw [hl]
    exact ⟨tblLookup_insert_self t (normalize_id resp.id) _,
      fun k hk => tblLookup_insert_ne t (normalize_id resp.id) k _ hk⟩
  · intro hl
    unfold handle_response
    rw [hl]
  · intro s hl hdone
    unfold handle_response
    rw [hl]
    simp [hdone]

/-- Witness for C10: a pending slot is resolved by its response, and a
second identical response then leaves the table unchanged. -/
theorem response_dispatch_spec_witness :
    tblLookup
        (handle_response [("x", ⟨0, .pending⟩)] ⟨.str "x", .ok, .null, none⟩)
        "x" = some ⟨0, .resolved ⟨.str "x", .ok, .null, none⟩⟩ ∧
    handle_response [("x", ⟨0, .resolved ⟨.str "x", .ok, .null, none⟩⟩)]
        ⟨.str "x", .ok, .null, none⟩ =
      [("x", ⟨0, .resolved ⟨.str "x", .ok, .null, none⟩⟩)] :=
  ⟨((response_dispatch_spec [("x", ⟨0, .pending⟩)]
      ⟨.str "x", .ok, .null, none⟩).1 0 rfl).1,
   (response_dispatch_spec [("x", ⟨0, .resolved ⟨.str "x", .ok, .null, none⟩⟩)]
      ⟨.str "x", .ok, .null, none⟩).2.2
      ⟨0, .resolved ⟨.str "x", .ok, .null, none⟩⟩ rfl rfl⟩

/-- Claim C6: `send_request` on a dead connection fails with the
not-connected error before writing anything or registering a slot (the
table is returned unchanged); on a live connection it writes exactly
the fresh Request (unless the write itself fails), awaits up to the
given timeout — defaulting to the engine-wide `request_timeout` — fails
with the timeout error on expiry, returns the resolving Response on
success, and in every outcome the fresh slot is gone from the final
table, which (the fresh id being new) coincides with the initial table
on every key. -/
theorem send_request_spec :
    ∀ (t : Table) (fresh tok : Nat) (cmd : String)
      (params : Option (List (String × Json))) (oc : AwaitOutcome)
      (timeout : Option Nat) (request_timeout : Nat),
      send_request false t fresh tok cmd params oc =
        ⟨.error .notConnected, t, []⟩ ∧
      ((∀ e, oc ≠ .sendFailed e) →
        (send_request true t fresh tok cmd params oc).wrote =
          [⟨.uuid fresh, cmd, params⟩]) ∧
      (oc = .timedOut →
        (send_request true t fresh tok cmd params oc).result =
          .error .timeout) ∧
      (∀ r, oc = .resolved r →
        (send_request true t fresh tok cmd params oc).result = .ok r) ∧
      tblLookup (send_request true t fresh tok cmd params oc).table
        (normalize_id (.uuid fresh)) = none ∧
      (tblLookup t (normalize_id (.uuid fresh)) = none →
        ∀ k, tblLookup (send_request true t fresh tok cmd params oc).table k =
          tblLookup t k) ∧
      effectiveTimeout none request_timeout = request_timeout ∧
      (∀ x, effectiveTimeout (some x) request_timeout = x) := by
  intro t fresh tok cmd params oc timeout request_timeout
  have htbl : (send_request true t fresh tok cmd params oc).table =
      tblErase (registerSlot t (normalize_id (.uuid fresh)) tok)
        (normalize_id (.uuid fresh)) := by
    cases oc <;> rfl
  refine ⟨rfl, ?_, ?_, ?_, ?_, ?_, rfl, fun _ => rfl⟩
  · intro hne
    cases oc with
    | sendFailed e => exact absurd rfl (hne e)
    | resolved r => rfl
    | timedOut => rfl
    | cancelled => rfl
  · intro h; subst h; rfl
  · intro r h; subst h; rfl
  · rw [htbl]
    exact tblLookup_erase_self _ _
  · intro hfresh k
    rw [htbl]
    by_cases hk : k = normalize_id (.uuid fresh)
    · subst hk
      rw [tblLookup_erase_self, hfresh]
    · rw [tblLookup_erase_ne _ _ _ hk]
      exact tblLookup_insert_ne t (normalize_id (.uuid fresh)) k _ hk

/-- Witness for C6 at a concrete call that times out. -/
theorem send_request_spec_witness :
    (send_request true [] 5 0 "echo" none .timedOut).result =
      .error .timeout ∧
    tblLookup (send_request true [] 5 0 "echo" none .timedOut).table
      (normalize_id (.uuid 5)) = none ∧
    (∀ e, AwaitOutcome.timedOut ≠ AwaitOutcome.sendFailed e) ∧
    (send_request true [] 5 0 "echo" none .timedOut).wrote =
      [⟨.uuid 5, "echo", none⟩] :=
  ⟨(send_request_spec [] 5 0 "echo" none .timedOut none 30).2.2.1 rfl,
   (send_request_spec [] 5 0 "echo" none .timedOut none 30).2.2.2.2.1,
   fun e h => AwaitOutcome.noConfusion h,
   (send_request_spec [] 5 0 "echo" none .timedOut none 30).2.1
     (fun e h => AwaitOutcome.noConfusion h)⟩

/-- Claim C8: broadcasts isolate per-connection failures.  Every
registered connection not in the exclude set gets its own entry — its
own write outcome for `broadcast_event`, its own Response-or-exception
for `broadcast_request` — excluded or unregistered connections get
none, and one connection's entry depends only on that connection's own
transport behaviour, so another connection's failure can never change
it. -/
theorem broadcast_isolation :
    ∀ (conns exclude : List Conn) (sendOk sendOk' : SendOk)
      (outcome outcome' : Conn → Except SendErr Response) (c : Conn),
      (c ∈ conns → c ∉ exclude →
        connLookup (broadcast_event conns exclude sendOk) c =
          some (sendOk c) ∧
        connLookup (broadcast_request conns exclude outcome) c =
          some (outcome c)) ∧
      (c ∉ conns ∨ c ∈ exclude →
        connLookup (broadcast_event conns exclude sendOk) c = none ∧
        connLookup (broadcast_request conns exclude outcome) c = none) ∧
      (sendOk c = sendOk' c →
        connLookup (broadcast_event conns exclude sendOk) c =
          connLookup (broadcast_event conns exclude sendOk') c) ∧
      (outcome c = outcome' c →
        connLookup (broadcast_request conns exclude outcome) c =
          connLookup (broadcast_request conns exclude outcome') c) := by
  intro conns exclude sendOk sendOk' outcome outcome' c
  have hmem : c ∈ conns.filter (fun d => decide (d ∉ exclude)) ↔
      c ∈ conns ∧ c ∉ exclude := by
    simp [List.mem_filter]
  refine ⟨?_, ?_, ?_, ?_⟩
  · intro h1 h2
    unfold broadcast_event broadcast_request
    rw [connLookup_map_self, connLookup_map_self,
      if_pos (hmem.mpr ⟨h1, h2⟩), if_pos (hmem.mpr ⟨h1, h2⟩)]
    exact ⟨rfl, rfl⟩
  · intro h
    have hno : c ∉ conns.filter (fun d => decide (d ∉ exclude)) := by
      intro hc
      rcases hmem.mp hc with ⟨hin, hnex⟩
      cases h with
      | inl hl => exact hl hin
      | inr hr => exact hnex hr
    unfold broadcast_event broadcast_request
    rw [connLookup_map_self, connLookup_map_self, if_neg hno, if_neg hno]
    exact ⟨rfl, rfl⟩
  · intro heq
    unfold broadcast_event
    rw [connLookup_map_self, connLookup_map_self, heq]
  · intro heq
    unfold broadcast_request
    rw [connLookup_map_self, connLookup_map_self, heq]

/-- Witness for C8: three connections, connection 2 excluded and
connection 3's write failing; connection 1 still gets its own delivery
and outcome, connection 3 reports its own failure, connection 2 gets
nothing. -/
theorem broadcast_isolation_witness :
    connLookup
        (broadcast_event [1, 2, 3] [2] (fun d => decide (d ≠ 3))) 1 =
      some (decide ((1 : Conn) ≠ 3)) ∧
    connLookup
        (broadcast_event [1, 2, 3] [2] (fun d => decide (d ≠ 3))) 3 =
      some (decide ((3 : Conn) ≠ 3)) ∧
    connLookup
        (broadcast_request [1, 2, 3] [2]
          (fun d => if d = 3 then .error .timeout else
            .ok (Response.success (.str "r") .null))) 2 = none :=
  ⟨((broadcast_isolation [1, 2, 3] [2] (fun d => decide (d ≠ 3))
      (fun d => decide (d ≠ 3))
      (fun d => if d = 3 then .error .timeout else
        .ok (Response.success (.str "r") .null))
      (fun d => if d = 3 then .error .timeout else
        .ok (Response.success (.str "r") .null)) 1).1
      (by decide) (by decide)).1,
   ((broadcast_isolation [1, 2, 3] [2] (fun d => decide (d ≠ 3))
      (fun d => decide (d ≠ 3))
      (fun d => if d = 3 then .error .timeout else
        .ok (Response.success (.str "r") .null))
      (fun d => if d = 3 then .error .timeout else
        .ok (Response.success (.str "r") .null)) 3).1
      (by decide) (by decide)).1,
   ((broadcast_isolation [1, 2, 3] [2] (fun d => decide (d ≠ 3))
      (fun d => decide (d ≠ 3))
      (fun d => if d = 3 then .error .timeout else
        .ok (Response.success (.str "r") .null))
      (fun d => if d = 3 then .error .timeout else
        .ok (Response.success (.str "r") .null)) 2).2.1
      (Or.inr (by decide))).2⟩

theorem cancelAll_lookup : ∀ (t : Table) (k : String) (tok : Nat),
    tblLookup t k = some ⟨tok, .pending⟩ →
    tblLookup (t.map
        (fun p => if p.2.done then p else (p.1, ⟨p.2.token, .cancelled⟩)))
      k = some ⟨tok, .cancelled⟩ := by
  intro t k tok
  induction t with
  | nil => intro hl; exact Option.noConfusion hl
  | cons a t ih =>
      intro hl
      rcases a with ⟨ka, sa⟩
      by_cases hk : ka = k
      · subst hk
        unfold tblLookup at hl
        rw [List.find?_cons_of_pos _ (by simp)] at hl
        simp only [Option.map_some'] at hl
        have hsa : sa = ⟨tok, .pending⟩ := Option.some.inj hl
        subst hsa
        unfold tblLookup
        rw [List.map_cons, List.find?_cons_of_pos _ (by simp [Slot.done])]
        simp [Slot.done]
      · unfold tblLookup at hl ⊢
        rw [List.find?_cons_of_neg _ (by simp [hk])] at hl
        rw [List.map_cons, List.find?_cons_of_neg _
          (by cases hd : sa.done <;> simp [hd, hk])]
        exact ih hl

/-- Claim C9 counterexample: the server's per-connection teardown does
not resolve pending correlation entries with a cancellation outcome.
With a single connection 1 and one pending entry created by a request
sent on it, tearing connection 1 down leaves the entry pending,
untouched (the `finally` block of `_handle_connection` never touches
`_pending_requests`). -/
theorem teardown_pending_counterexample :
    (teardownConnection ⟨[1], [(1, .running)], [("rid", ⟨0, .pending⟩)]⟩
        1).1.pending = [("rid", ⟨0, .pending⟩)] ∧
    tblLookup
        (teardownConnection ⟨[1], [(1, .running)], [("rid", ⟨0, .pending⟩)]⟩
          1).1.pending "rid" = some ⟨0, .pending⟩ ∧
    FutureState.pending ≠ FutureState.cancelled ∧
    (teardownConnection ⟨[1], [(1, .running)], [("rid", ⟨0, .pending⟩)]⟩
        1).1.connections = [] := by
  refine ⟨rfl, rfl, ?_, rfl⟩
  intro h
  exact FutureState.noConfusion h

/-- Claim C9 (amended): tearing down one server connection removes only
that connection from the registry, pops and cancels only that
connection's heartbeat task (when still running), and leaves every
other connection's registry membership and heartbeat task — and the
entire shared pending-correlation table — unchanged; pending entries
are not cancelled at server-side teardown.  The client's `disconnect`
cancels every still-pending future of its own table and clears it. -/
theorem teardown_frame :
    ∀ (s : ServerState) (c : Conn) (cs : ClientState),
      (teardownConnection s c).1.connections =
        s.connections.filter (fun d => d ≠ c) ∧
      c ∉ (teardownConnection s c).1.connections ∧
      (∀ d, d ≠ c →
        (d ∈ (teardownConnection s c).1.connections ↔
          d ∈ s.connections)) ∧
      connLookup (teardownConnection s c).1.heartbeats c = none ∧
      (∀ d, d ≠ c → connLookup (teardownConnection s c).1.heartbeats d =
        connLookup s.heartbeats d) ∧
      (∀ ts, connLookup s.heartbeats c = some ts → ts.isDone = false →
        (teardownConnection s c).2 = some .cancelled) ∧
      (teardownConnection s c).1.pending = s.pending ∧
      (clientDisconnect cs).1.pending = [] ∧
      (∀ k tok, tblLookup cs.pending k = some ⟨tok, .pending⟩ →
        tblLookup (clientDisconnect cs).2 k = some ⟨tok, .cancelled⟩) := by
  intro s c cs
  refine ⟨rfl, ?_, ?_, ?_, ?_, ?_, rfl, rfl, ?_⟩
  · simp [teardownConnection, List.mem_filter]
  · intro d hd
    simp [teardownConnection, List.mem_filter, hd]
  · show Option.map _ (List.find? (fun p => p.1 = c)
      (List.filter (fun p => p.1 ≠ c) s.heartbeats)) = none
    rw [find?_filter_self]
    rfl
  · intro d hd
    show Option.map _ (List.find? (fun p => p.1 = d)
        (List.filter (fun p => p.1 ≠ c) s.heartbeats)) =
      connLookup s.heartbeats d
    rw [find?_filter_ne _ c d hd]
    rfl
  · intro ts hl hdone
    unfold teardownConnection
    unfold connLookup at hl
    cases hf : List.find? (fun p => p.1 = c) s.heartbeats with
    | none => rw [hf] at hl; exact Option.noConfusion hl
    | some p =>
        rw [hf] at hl
        simp only [Option.map_some'] at hl
        have hp : p.2 = ts := Option.some.inj hl
        simp only [hf, Option.map_some']
        rw [hp, if_neg (by simp [hdone])]
  · exact fun k tok hl => cancelAll_lookup cs.pending k tok hl

/-- Witness for C9's amended theorem on a concrete two-connection
state: tearing down connection 1 keeps connection 2's heartbeat task
and cancels connection 1's running task, and a concrete client
disconnect cancels the pending future. -/
theorem teardown_frame_witness :
    connLookup
        (teardownConnection
          ⟨[1, 2], [(1, .running), (2, .running)], []⟩ 1).1.heartbeats 2 =
      connLookup [(1, TaskState.running), (2, TaskState.running)] 2 ∧
    (teardownConnection
        ⟨[1, 2], [(1, .running), (2, .running)], []⟩ 1).2 =
      some .cancelled ∧
    tblLookup
        (clientDisconnect ⟨true, true, true, [("k", ⟨7, .pending⟩)]⟩).2
        "k" = some ⟨7, .cancelled⟩ :=
  ⟨(teardown_frame ⟨[1, 2], [(1, .running), (2, .running)], []⟩ 1
      ⟨true, true, true, [("k", ⟨7, .pending⟩)]⟩).2.2.2.2.1 2 (by decide),
   (teardown_frame ⟨[1, 2], [(1, .running), (2, .running)], []⟩ 1
      ⟨true, true, true, [("k", ⟨7, .pending⟩)]⟩).2.2.2.2.2.1
      .running rfl rfl,
   (teardown_frame ⟨[1, 2], [(1, .running), (2, .running)], []⟩ 1
      ⟨true, true, true, [("k", ⟨7, .pending⟩)]⟩).2.2.2.2.2.2.2.2
      "k" 7 rfl⟩

/-- Claim C1: decoding the encoded form of any valid message (one
satisfying the §3 invariants) succeeds and reproduces every field,
including the `type` discriminator; the id field is reproduced up to
§3's Identifier equality — the normalized string form — under which a
UUID id and its canonical string render are the same identifier. -/
theorem round_trip :
    ∀ (m : Msg) (fresh : Nat), validMsg m →
      ∃ m', parse_message fresh (some (encodeMessage m)) = .ok m' ∧
        m'.tag = m.tag ∧ msgEqNorm m m' := by
  intro m fresh hv
  cases m with
  | request r =>
      rcases r with ⟨id, cmd, params⟩
      refine ⟨.request ⟨.str (normalize_id id), cmd, params⟩, ?_, rfl,
        ⟨rfl, rfl, rfl⟩⟩
      cases id <;> cases params <;> rfl
  | response r =>
      rcases r with ⟨id, st, data, err⟩
      cases st with
      | ok =>
          have he : err = none := hv.1 rfl
          subst he
          refine ⟨.response ⟨.str (normalize_id id), .ok, data, none⟩, ?_,
            rfl, ⟨rfl, rfl, rfl, rfl⟩⟩
          cases id <;> rfl
      | error =>
          have hd : data = .null := hv.2 rfl
          subst hd
          refine ⟨.response ⟨.str (normalize_id id), .error, .null, err⟩, ?_,
            rfl, ⟨rfl, rfl, rfl, rfl⟩⟩
          cases id <;> cases err <;> rfl
  | event e =>
      rcases e with ⟨id, nm, data⟩
      refine ⟨.event ⟨.str (normalize_id id), nm, data⟩, ?_, rfl,
        ⟨rfl, rfl, rfl⟩⟩
      cases id <;> cases data <;> rfl

/-- Witness for C1 on a concrete valid event. -/
theorem round_trip_witness :
    validMsg (.event ⟨.str "e1", "player_joined", some [("p", .str "S")]⟩) ∧
    ∃ m', parse_message 0
        (some (encodeMessage
          (.event ⟨.str "e1", "player_joined", some [("p", .str "S")]⟩))) =
      .ok m' ∧
      m'.tag = (Msg.event ⟨.str "e1", "player_joined",
        some [("p", .str "S")]⟩).tag ∧
      msgEqNorm (.event ⟨.str "e1", "player_joined", some [("p", .str "S")]⟩)
        m' :=
  ⟨(by decide : ("player_joined" : String) ≠ ""),
   round_trip (.event ⟨.str "e1", "player_joined", some [("p", .str "S")]⟩) 0
     (by decide : ("player_joined" : String) ≠ "")⟩

theorem isOk_map {α β γ : Type} (f : β → γ) (x : Except α β) :
    (x.map f).isOk = x.isOk := by
  cases x <;> rfl

theorem parseIdDefault_isOk (kvs : List (String × Json)) (fresh : Nat) :
    (parseIdDefault kvs fresh).isOk = true ↔ goodIdOpt kvs := by
  unfold parseIdDefault goodIdOpt strField
  cases h : jGet kvs "id" with
  | none => simp [Except.isOk, Except.toBool]
  | some v => cases v <;> simp [Except.isOk, Except.toBool]

theorem parseIdRequired_isOk (kvs : List (String × Json)) :
    (parseIdRequired kvs).isOk = true ↔ strField kvs "id" := by
  unfold parseIdRequired strField
  cases h : jGet kvs "id" with
  | none => simp [Except.isOk, Except.toBool]
  | some v => cases v <;> simp [Except.isOk, Except.toBool]

theorem parseStrField_isOk (kvs : List (String × Json)) (k : String) :
    (parseStrField kvs k).isOk = true ↔ strField kvs k := by
  unfold parseStrField strField
  cases h : jGet kvs k with
  | none => simp [Except.isOk, Except.toBool]
  | some v => cases v <;> simp [Except.isOk, Except.toBool]

theorem parseOptDictField_isOk (kvs : List (String × Json)) (k : String) :
    (parseOptDictField kvs k).isOk = true ↔ goodOptDict kvs k := by
  unfold parseOptDictField goodOptDict
  cases h : jGet kvs k with
  | none => simp [Except.isOk, Except.toBool]
  | some v => cases v <;> simp [Except.isOk, Except.toBool]

theorem parseOptStrField_isOk (kvs : List (String × Json)) (k : String) :
    (parseOptStrField kvs k).isOk = true ↔ goodOptStr kvs k := by
  unfold parseOptStrField goodOptStr strField
  cases h : jGet kvs k with
  | none => simp [Except.isOk, Except.toBool]
  | some v => cases v <;> simp [Except.isOk, Except.toBool]

theorem parseStatusField_isOk (kvs : List (String × Json)) :
    (parseStatusField kvs).isOk = true ↔ goodStatus kvs := by
  unfold parseStatusField goodStatus
  cases h : jGet kvs "status" with
  | none => simp [Except.isOk, Except.toBool]
  | some v =>
      cases v with
      | str s =>
          by_cases h1 : s = "ok"
          · subst h1; simp [Except.isOk, Except.toBool]
          · by_cases h2 : s = "error"
            · subst h2; simp [Except.isOk, Except.toBool]
            · simp [h1, h2, Except.isOk, Except.toBool]
      | null => simp [Except.isOk, Except.toBool]
      | bool b => simp [Except.isOk, Except.toBool]
      | num n => simp [Except.isOk, Except.toBool]
      | arr xs => simp [Except.isOk, Except.toBool]
      | obj o => simp [Except.isOk, Except.toBool]

theorem parseStatusField_ok_iff (kvs : List (String × Json)) :
    parseStatusField kvs = .ok .ok ↔
      jGet kvs "status" = some (.str "ok") := by
  unfold parseStatusField
  cases h : jGet kvs "status" with
  | none => simp
  | some v =>
      cases v with
      | str s =>
          by_cases h1 : s = "ok"
          · subst h1; simp
          · by_cases h2 : s = "error"
            · subst h2; simp
            · simp [h1, h2]
      | null => simp
      | bool b => simp
      | num n => simp
      | arr xs => simp
      | obj o => simp

theorem parseStatusField_error_iff (kvs : List (String × Json)) :
    parseStatusField kvs = .ok .error ↔
      jGet kvs "status" = some (.str "error") := by
  unfold parseStatusField
  cases h : jGet kvs "status" with
  | none => simp
  | some v =>
      cases v with
      | str s =>
          by_cases h1 : s = "ok"
          · subst h1; simp
          · by_cases h2 : s = "error"
            · subst h2; simp
            · simp [h1, h2]
      | null => simp
      | bool b => simp
      | num n => simp
      | arr xs => simp
      | obj o => simp

theorem parseOptStrField_none_iff (kvs : List (String × Json)) (k : String) :
    parseOptStrField kvs k = .ok none ↔
      (jGet kvs k = none ∨ jGet kvs k = some .null) := by
  unfold parseOptStrField
  cases h : jGet kvs k with
  | none => simp
  | some v => cases v <;> simp

theorem parseOptStrField_some_iff (kvs : List (String × Json)) (k s : String) :
    parseOptStrField kvs k = .ok (some s) ↔
      jGet kvs k = some (.str s) := by
  unfold parseOptStrField
  cases h : jGet kvs k with
  | none => simp
  | some v => cases v <;> simp

theorem getD_null_iff (o : Option Json) :
    o.getD .null = .null ↔ (o = none ∨ o = some .null) := by
  cases o <;> simp

theorem parseRequestFields_isOk (fresh : Nat) (kvs : List (String × Json)) :
    (parseRequestFields fresh kvs).isOk = true ↔
      goodIdOpt kvs ∧ strField kvs "command" ∧ goodOptDict kvs "params" := by
  have h1 := parseIdDefault_isOk kvs fresh
  have h2 := parseStrField_isOk kvs "command"
  have h3 := parseOptDictField_isOk kvs "params"
  unfold parseRequestFields
  cases hi : parseIdDefault kvs fresh <;>
    cases hc : parseStrField kvs "command" <;>
    cases hp : parseOptDictField kvs "params" <;>
    rw [hi] at h1 <;> rw [hc] at h2 <;> rw [hp] at h3 <;>
    simp [Except.isOk, Except.toBool] at h1 h2 h3 ⊢ <;>
    tauto

theorem parseResponseFields_isOk (kvs : List (String × Json)) :
    (parseResponseFields kvs).isOk = true ↔
      strField kvs "id" ∧ goodStatus kvs ∧ goodOptStr kvs "error" ∧
        responseConsistent kvs := by
  have h1 := parseIdRequired_isOk kvs
  have h2 := parseStatusField_isOk kvs
  have h3 := parseOptStrField_isOk kvs "error"
  unfold parseResponseFields
  cases hi : parseIdRequired kvs with
  | error e =>
      rw [hi] at h1
      simp [Except.isOk, Except.toBool] at h1 ⊢
      tauto
  | ok i =>
      rw [hi] at h1
      simp [Except.isOk, Except.toBool] at h1
      cases hs : parseStatusField kvs with
      | error e =>
          rw [hs] at h2
          simp [Except.isOk, Except.toBool] at h2 ⊢
          tauto
      | ok st =>
          have h2v := h2
          rw [hs] at h2
          simp [Except.isOk, Except.toBool] at h2
          cases he : parseOptStrField kvs "error" with
          | error e2 =>
              rw [he] at h3
              simp [Except.isOk, Except.toBool] at h3 ⊢
              tauto
          | ok er =>
              rw [he] at h3
              simp [Except.isOk, Except.toBool] at h3
              simp only [h1, h2, h3, true_and]
              unfold validate_response responseConsistent
              cases st with
              | ok =>
                  have hst := (parseStatusField_ok_iff kvs).mp hs
                  rw [hst]
                  cases er with
                  | none =>
                      have hee := (parseOptStrField_none_iff kvs "error").mp he
                      simp [Except.isOk, Except.toBool, hee]
                  | some s2 =>
                      have hee :=
                        (parseOptStrField_some_iff kvs "error" s2).mp he
                      simp [Except.isOk, Except.toBool, hee]
              | error =>
                  have hst := (parseStatusField_error_iff kvs).mp hs
                  rw [hst]
                  cases hj : jGet kvs "data" with
                  | none => simp [Except.isOk, Except.toBool]
                  | some dv => cases dv <;> simp [Except.isOk, Except.toBool]

theorem parseEventFields_isOk (fresh : Nat) (kvs : List (String × Json)) :
    (parseEventFields fresh kvs).isOk = true ↔
      goodIdOpt kvs ∧ strField kvs "name" ∧ goodOptDict kvs "data" := by
  have h1 := parseIdDefault_isOk kvs fresh
  have h2 := parseStrField_isOk kvs "name"
  have h3 := parseOptDictField_isOk kvs "data"
  unfold parseEventFields
  cases hi : parseIdDefault kvs fresh <;>
    cases hc : parseStrField kvs "name" <;>
    cases hp : parseOptDictField kvs "data" <;>
    rw [hi] at h1 <;> rw [hc] at h2 <;> rw [hp] at h3 <;>
    simp [Except.isOk, Except.toBool] at h1 h2 h3 ⊢ <;>
    tauto

theorem parse_message_obj (fresh : Nat) (kvs : List (String × Json))
    (t : String) (h : jGet kvs "type" = some (.str t)) :
    parse_message fresh (some (.obj kvs)) =
      if t = "request" then (parseRequestFields fresh kvs).map .request
      else if t = "response" then (parseResponseFields kvs).map .response
      else if t = "event" then (parseEventFields fresh kvs).map .event
      else .error "input tag does not match any expected tag" := by
  simp only [parse_message]
  rw [h]

/-- Claim C4: decoding succeeds exactly on well-formed message
documents — well-formed JSON that is an object carrying a recognized
`type` discriminator with the selected variant's fields validating
(`goodMessageJson`, written from the spec's words) — so it fails with a
decode error on malformed JSON, an absent, non-string or unrecognized
discriminator, and missing or mistyped variant fields; moreover the
variant of any successfully decoded message is exactly the one named by
the document's `type` field, so selection is by the discriminator
alone. -/
theorem decode_spec :
    ∀ (fresh : Nat) (j : Option Json),
      ((parse_message fresh j).isOk = true ↔ goodMessageJson j) ∧
      (∀ m, parse_message fresh j = .ok m →
        ∃ kvs, j = some (.obj kvs) ∧
          jGet kvs "type" = some (.str m.tag)) := by
  intro fresh j
  constructor
  · cases j with
    | none => simp [parse_message, goodMessageJson, Except.isOk, Except.toBool]
    | some v =>
        cases v with
        | obj kvs =>
            simp only [parse_message, goodMessageJson]
            cases ht : jGet kvs "type" with
            | none => simp [Except.isOk, Except.toBool]
            | some w =>
                cases w with
                | str t =>
                    by_cases ht1 : t = "request"
                    · subst ht1
                      simp [isOk_map, parseRequestFields_isOk]
                    · by_cases ht2 : t = "response"
                      · subst ht2
                        simp [isOk_map, parseResponseFields_isOk]
                      · by_cases ht3 : t = "event"
                        · subst ht3
                          simp [ht1, isOk_map, parseEventFields_isOk]
                        · simp [ht1, ht2, ht3, Except.isOk, Except.toBool]
                | null => simp [Except.isOk, Except.toBool]
                | bool b => simp [Except.isOk, Except.toBool]
                | num n => simp [Except.isOk, Except.toBool]
                | arr xs => simp [Except.isOk, Except.toBool]
                | obj o => simp [Except.isOk, Except.toBool]
        | null => simp [parse_message, goodMessageJson, Except.isOk,
            Except.toBool]
        | bool b => simp [parse_message, goodMessageJson, Except.isOk,
            Except.toBool]
        | num n => simp [parse_message, goodMessageJson, Except.isOk,
            Except.toBool]
        | str s => simp [parse_message, goodMessageJson, Except.isOk,
            Except.toBool]
        | arr xs => simp [parse_message, goodMessageJson, Except.isOk,
            Except.toBool]
  · intro m hm
    cases j with
    | none => simp [parse_message] at hm
    | some v =>
        cases v with
        | obj kvs =>
            refine ⟨kvs, rfl, ?_⟩
            cases ht : jGet kvs "type" with
            | none =>
                have hred : parse_message fresh (some (.obj kvs)) =
                    .error "unable to extract tag using discriminator type" := by
                  simp only [parse_message]; rw [ht]
                rw [hred] at hm
                exact Except.noConfusion hm
            | some w =>
                cases w with
                | str t =>
                    rw [parse_message_obj fresh kvs t ht] at hm
                    by_cases ht1 : t = "request"
                    · subst ht1
                      rw [if_pos rfl] at hm
                      cases hr : parseRequestFields fresh kvs with
                      | error e => rw [hr] at hm; exact Except.noConfusion hm
                      | ok r =>
                          rw [hr] at hm
                          simp only [Except.map] at hm
                          injection hm with hm
                          subst hm
                          rfl
                    · by_cases ht2 : t = "response"
                      · subst ht2
                        rw [if_neg ht1, if_pos rfl] at hm
                        cases hr : parseResponseFields kvs with
                        | error e =>
                            rw [hr] at hm; exact Except.noConfusion hm
                        | ok r =>
                            rw [hr] at hm
                            simp only [Except.map] at hm
                            injection hm with hm
                            subst hm
                            rfl
                      · by_cases ht3 : t = "event"
                        · subst ht3
                          rw [if_neg ht1, if_neg ht2, if_pos rfl] at hm
                          cases hr : parseEventFields fresh kvs with
                          | error e =>
                              rw [hr] at hm; exact Except.noConfusion hm
                          | ok r =>
                              rw [hr] at hm
                              simp only [Except.map] at hm
                              injection hm with hm
                              subst hm
                              rfl
                        · rw [if_neg ht1, if_neg ht2, if_neg ht3] at hm
                          exact Except.noConfusion hm
                | null =>
                    have hred : parse_message fresh (some (.obj kvs)) =
                        .error "discriminator tag is not a string" := by
                      simp only [parse_message]; rw [ht]
                    rw [hred] at hm
                    exact Except.noConfusion hm
                | bool b =>
                    have hred : parse_message fresh (some (.obj kvs)) =
                        .error "discriminator tag is not a string" := by
                      simp only [parse_message]; rw [ht]
                    rw [hred] at hm
                    exact Except.noConfusion hm
                | num n =>
                    have hred : parse_message fresh (some (.obj kvs)) =
                        .error "discriminator tag is not a string" := by
                      simp only [parse_message]; rw [ht]
                    rw [hred] at hm
                    exact Except.noConfusion hm
                | arr xs =>
                    have hred : parse_message fresh (some (.obj kvs)) =
                        .error "discriminator tag is not a string" := by
                      simp only [parse_message]; rw [ht]
                    rw [hred] at hm
                    exact Except.noConfusion hm
                | obj o =>
                    have hred : parse_message fresh (some (.obj kvs)) =
                        .error "discriminator tag is not a string" := by
                      simp only [parse_message]; rw [ht]
                    rw [hred] at hm
                    exact Except.noConfusion hm
        | null => simp [parse_message] at hm
        | bool b => simp [parse_message] at hm
        | num n => simp [parse_message] at hm
        | str s => simp [parse_message] at hm
        | arr xs => simp [parse_message] at hm

/-- Witness for C4: a concrete well-formed event document decodes, its
variant named by the discriminator; a concrete document with an unknown
discriminator fails. -/
theorem decode_spec_witness :
    (parse_message 0
        (some (.obj [("type", .str "event"), ("name", .str "x")]))).isOk =
      true ∧
    (∃ kvs, (some (Json.obj [("type", .str "event"), ("name", .str "x")])) =
      some (.obj kvs) ∧
      jGet kvs "type" =
        some (.str (Msg.event ⟨.uuid 0, "x", none⟩).tag)) ∧
    (parse_message 0 (some (.obj [("type", .str "bogus")]))).isOk = false :=
  ⟨(decode_spec 0
      (some (.obj [("type", .str "event"), ("name", .str "x")]))).1.mpr
      ⟨Or.inl rfl, ⟨"x", rfl⟩, Or.inl rfl⟩,
   (decode_spec 0
      (some (.obj [("type", .str "event"), ("name", .str "x")]))).2
      (.event ⟨.uuid 0, "x", none⟩) rfl,
   rfl⟩

end SiYi
